import Mathlib

/-!
Verification development for the `ai_forward` reverse-proxy gateway.

The repository contains two request pipelines:
* the axum pipeline that `main.rs` actually builds (`state.rs`,
  `middleware/mod.rs`, `handlers/chat.rs`, `services/ai.rs`), and
* an older salvo pipeline (`api.rs`, `db.rs`, `logger.rs`) whose files are
  present in `src/` but are not declared as modules by `main.rs`.

Both are embedded below where a claim refers to them.  Machine maps
(`DashMap<K, V>`) are embedded as association lists; `DashMap<K, ()>` sets as
key lists; `Instant` values as natural-number seconds.
-/

namespace AiForward

/-! ### Association-list maps (embedding of `DashMap`) -/

/-- Lookup in an association list (embedding of `DashMap::get`). -/
def mapGet [DecidableEq κ] (m : List (κ × α)) (k : κ) : Option α :=
  match m with
  | [] => none
  | (k₀, v₀) :: rest => if k₀ = k then some v₀ else mapGet rest k

/-- Store a value under a key, replacing any previous binding
(embedding of `DashMap::insert` / writing through an `entry`). -/
def mapSet [DecidableEq κ] (m : List (κ × α)) (k : κ) (v : α) : List (κ × α) :=
  match m with
  | [] => [(k, v)]
  | (k₀, v₀) :: rest => if k₀ = k then (k, v) :: rest else (k₀, v₀) :: mapSet rest k v

/-- Remove a key (embedding of `DashMap::remove`). -/
def mapRemove [DecidableEq κ] (m : List (κ × α)) (k : κ) : List (κ × α) :=
  match m with
  | [] => []
  | (k₀, v₀) :: rest => if k₀ = k then rest else (k₀, v₀) :: mapRemove rest k

/-- Embedding of `*map.entry(k).or_insert(0) += 1` on a `DashMap<_, u64>`. -/
def mapInc [DecidableEq κ] (m : List (κ × Nat)) (k : κ) : List (κ × Nat) :=
  mapSet m k ((mapGet m k).getD 0 + 1)

theorem mapGet_mapSet_self [DecidableEq κ] (m : List (κ × α)) (k : κ) (v : α) :
    mapGet (mapSet m k v) k = some v := by
  induction m with
  | nil => simp [mapSet, mapGet]
  | cons hd tl ih =>
    obtain ⟨k₀, v₀⟩ := hd
    by_cases h : k₀ = k
    · simp [mapSet, mapGet, h]
    · simp [mapSet, mapGet, h, ih]

theorem mapGet_mapSet_ne [DecidableEq κ] (m : List (κ × α)) (k k' : κ) (v : α)
    (h : k ≠ k') : mapGet (mapSet m k v) k' = mapGet m k' := by
  induction m with
  | nil => simp [mapSet, mapGet, h]
  | cons hd tl ih =>
    obtain ⟨k₀, v₀⟩ := hd
    by_cases h₀ : k₀ = k
    · subst h₀
      simp [mapSet, mapGet, h]
    · simp [mapSet, mapGet, h₀, ih]

theorem mapGet_mapInc_self [DecidableEq κ] (m : List (κ × Nat)) (k : κ) :
    mapGet (mapInc m k) k = some ((mapGet m k).getD 0 + 1) := by
  simp [mapInc, mapGet_mapSet_self]

theorem mapGet_mapInc_ne [DecidableEq κ] (m : List (κ × Nat)) (k k' : κ)
    (h : k ≠ k') : mapGet (mapInc m k) k' = mapGet m k' := by
  simp [mapInc, mapGet_mapSet_ne _ _ _ _ h]

/-! ### IP ban manager (`src/state.rs`, struct `IpBanManager`)

IPv6 handling in the source goes through the `ipnet` crate:
`IpNet::new(addr, 48)` stores `addr` unchanged (host bits are NOT cleared:
truncation requires a separate `.trunc()` call, which the source never makes),
and its `Display` renders as `"{addr}/{prefix_len}"` using the stored,
untruncated address.  The rendered string is therefore in bijection with the
128-bit address value (`std` renders `Ipv6Addr` canonically per RFC 5952), so
the maps keyed by that string are embedded as maps keyed by the address value
itself, a `Nat` below.

The client identifier reaches the manager as a string which the source parses
with `ip.parse::<IpAddr>()`.  The parse outcome is part of the input here:
`IpKind.v4 s` is a string that parsed as IPv4, `IpKind.v6 a s` one that parsed
as the IPv6 address with 128-bit value `a`, and `IpKind.bad s` an unparseable
string.  The same string always carries the same parse outcome, which the
constructors enforce by construction. -/

inductive IpKind where
  | v4 (s : String)
  | v6 (a : Nat) (s : String)
  | bad (s : String)
deriving DecidableEq

/-- State of `IpBanManager`: the four `DashMap`s plus the two config fields.
Failure records are `(failures, firstFailure)` pairs; times are seconds. -/
structure BanState where
  ipv4_fail_records : List (String × (Nat × Nat))
  ipv6_fail_records : List (Nat × (Nat × Nat))
  banned_ipv4 : List String
  banned_ipv6_networks : List Nat
  max_failures : Nat
  failure_window_hours : Nat
deriving DecidableEq

/-- Constructor `IpBanManager::new(max_failures)` with the 1-hour window. -/
def BanState.new (max_failures : Nat) : BanState :=
  ⟨[], [], [], [], max_failures, 1⟩

/-- Function `get_ipv6_network`: `IpNet::new(ip_addr, 48).to_string()`.  As explained
above the produced string is modelled by the untruncated address value. -/
def get_ipv6_network (a : Nat) : Nat := a

/-- The /48 network an IPv6 address actually belongs to (what a truncating
`IpNet::new(ip, 48).trunc().to_string()` would have produced): the top 48 bits
of the 128-bit value, host bits cleared. -/
def ipv6Slash48 (a : Nat) : Nat := a / 2 ^ 80 * 2 ^ 80

/-- Method `IpBanManager::is_ipv6_banned`: membership of the `/48`-rendered string of
the (untruncated) address in `banned_ipv6_networks`. -/
def BanState.is_ipv6_banned (st : BanState) (a : Nat) : Bool :=
  st.banned_ipv6_networks.contains (get_ipv6_network a)

/-- Method `IpBanManager::is_banned`.  Unparseable strings are NOT banned
("如果IP地址解析失败，不封禁（避免误封）"). -/
def BanState.is_banned (st : BanState) (ip : IpKind) : Bool :=
  match ip with
  | .v4 s => st.banned_ipv4.contains s
  | .v6 a _ => st.is_ipv6_banned a
  | .bad _ => false

/-- One failure-record update on a generic record map with its banned set:
`entry(k).or_insert((0, now))`, then the window check, increment, threshold
test and ban insertion, exactly as each arm of `record_failure` does. -/
def failStep [DecidableEq κ] (records : List (κ × (Nat × Nat))) (banned : List κ)
    (k : κ) (now maxFailures windowSecs : Nat) :
    List (κ × (Nat × Nat)) × List κ :=
  let entry := (mapGet records k).getD (0, now)
  if now - entry.2 ≤ windowSecs then
    let newCount := entry.1 + 1
    (mapSet records k (newCount, entry.2),
     if newCount ≥ maxFailures then k :: banned else banned)
  else
    (mapSet records k (1, now), banned)

/-- Method `IpBanManager::record_failure` at time `now`.  IPv4 strings and
unparseable strings both key `ipv4_fail_records` / `banned_ipv4` verbatim;
IPv6 addresses key `ipv6_fail_records` / `banned_ipv6_networks` by the
(untruncated) `/48` string.  (`get_ipv6_network` never fails on a parsed IPv6
address since 48 ≤ 128, so the source's fallback arm is unreachable.) -/
def BanState.record_failure (st : BanState) (ip : IpKind) (now : Nat) : BanState :=
  let windowSecs := st.failure_window_hours * 3600
  match ip with
  | .v4 s =>
    let r := failStep st.ipv4_fail_records st.banned_ipv4 s now st.max_failures windowSecs
    { st with ipv4_fail_records := r.1, banned_ipv4 := r.2 }
  | .v6 a _ =>
    let r := failStep st.ipv6_fail_records st.banned_ipv6_networks
      (get_ipv6_network a) now st.max_failures windowSecs
    { st with ipv6_fail_records := r.1, banned_ipv6_networks := r.2 }
  | .bad s =>
    let r := failStep st.ipv4_fail_records st.banned_ipv4 s now st.max_failures windowSecs
    { st with ipv4_fail_records := r.1, banned_ipv4 := r.2 }

/-- Method `IpBanManager::reset_failures`: drop the failure record, never a ban. -/
def BanState.reset_failures (st : BanState) (ip : IpKind) : BanState :=
  match ip with
  | .v4 s => { st with ipv4_fail_records := mapRemove st.ipv4_fail_records s }
  | .v6 a _ => { st with ipv6_fail_records := mapRemove st.ipv6_fail_records (get_ipv6_network a) }
  | .bad s => { st with ipv4_fail_records := mapRemove st.ipv4_fail_records s }

/-- Method `IpBanManager::get_failure_count` at time `now`. -/
def BanState.get_failure_count (st : BanState) (ip : IpKind) (now : Nat) : Nat :=
  let windowSecs := st.failure_window_hours * 3600
  let ofRecord : Option (Nat × Nat) → Nat := fun r =>
    match r with
    | some (count, first) => if now - first ≤ windowSecs then count else 0
    | none => 0
  match ip with
  | .v4 s => ofRecord (mapGet st.ipv4_fail_records s)
  | .v6 a _ => ofRecord (mapGet st.ipv6_fail_records (get_ipv6_network a))
  | .bad s => ofRecord (mapGet st.ipv4_fail_records s)


/-! ### JSON values (embedding of `serde_json::Value`)

Indexing `value["k"]` / `value[i]` on a non-matching or missing position
yields `Value::Null` in `serde_json` (for reads); the mutable-index uses in
the sources under scrutiny only ever write to positions that were just read
successfully, so the write helpers below replace in place and leave the value
unchanged where the source would have panicked or auto-inserted. -/

inductive Json where
  | null
  | bool (b : Bool)
  | num (n : Int)
  | str (s : String)
  | arr (elems : List Json)
  | obj (fields : List (String × Json))

/-- Lexicographic order on character lists (by code point), the key order
used to canonicalize object fields below. -/
def charsLt : List Char → List Char → Bool
  | _, [] => false
  | [], _ :: _ => true
  | c :: cs, d :: ds =>
    if c.toNat < d.toNat then true
    else if d.toNat < c.toNat then false
    else charsLt cs ds

/-- Key order on strings. -/
def keyLt (a b : String) : Bool := charsLt a.data b.data

/-- Insertion step of the field sort. -/
def insertField (f : String × Json) : List (String × Json) → List (String × Json)
  | [] => [f]
  | g :: rest => if keyLt f.1 g.1 then f :: g :: rest else g :: insertField f rest

/-- Sort object fields by key (insertion sort). -/
def sortFields : List (String × Json) → List (String × Json)
  | [] => []
  | f :: rest => insertField f (sortFields rest)

/-- Canonical form of a JSON value: every object's fields sorted by key,
arrays left in order.  `serde_json` maps and Postgres JSONB objects hold
unique keys and compare as finite maps, so two values are equal for them
exactly when their canonical forms coincide structurally. -/
def Json.canon (x : Json) : Json :=
  match x with
  | .null => .null
  | .bool a => .bool a
  | .num a => .num a
  | .str a => .str a
  | .arr a => .arr (canonElems a)
  | .obj a => .obj (sortFields (canonFields a))
where
  canonElems : List Json → List Json
    | [] => []
    | u :: us => Json.canon u :: canonElems us
  canonFields : List (String × Json) → List (String × Json)
    | [] => []
    | (k, v) :: rest => (k, Json.canon v) :: canonFields rest

/-- Structural comparison of canonical forms. -/
def Json.eqStrict (x y : Json) : Bool :=
  match x, y with
  | .null, .null => true
  | .str a, .str c => a == c
  | .bool a, .bool c => a == c
  | .num a, .num c => a == c
  | .arr a, .arr c => eqElems a c
  | .obj a, .obj c => eqFields a c
  | _, _ => false
where
  eqElems : List Json → List Json → Bool
    | [], [] => true
    | u :: us, w :: ws => Json.eqStrict u w && eqElems us ws
    | _, _ => false
  eqFields : List (String × Json) → List (String × Json) → Bool
    | [], [] => true
    | (ku, u) :: us, (kw, w) :: ws => ku == kw && Json.eqStrict u w && eqFields us ws
    | _, _ => false

/-- Equality on JSON values as `serde_json`'s `PartialEq` and the JSONB `=`
of the cache query define it: objects are compared as finite maps —
key-order-insensitively — and arrays element by element in order.  Values are
canonicalized (object fields sorted by key at every depth) and then compared
structurally. -/
def Json.beq (x y : Json) : Bool := Json.eqStrict x.canon y.canon

/-- Read a field: `value["k"]`, `Value::Null` when absent or not an object. -/
def Json.getKey (j : Json) (k : String) : Json :=
  match j with
  | .obj fields => ((fields.find? (fun f => f.1 = k)).map (fun f => f.2)).getD .null
  | _ => .null

/-- Read an array element: `value[i]`, `Value::Null` when out of range. -/
def Json.getIdx (j : Json) (i : Nat) : Json :=
  match j with
  | .arr elems => elems.getD i .null
  | _ => .null

/-- Method `Value::as_str`. -/
def Json.asStr (j : Json) : Option String :=
  match j with
  | .str s => some s
  | _ => none

/-- Method `Value::as_bool`. -/
def Json.asBool (j : Json) : Option Bool :=
  match j with
  | .bool b => some b
  | _ => none

/-- Write a field: `value["k"] = v` on an object (replace or append). -/
def Json.setKey (j : Json) (k : String) (v : Json) : Json :=
  match j with
  | .obj fields => .obj (mapSet fields k v)
  | _ => j

/-- Mutate an array element in place. -/
def Json.modifyIdx (j : Json) (i : Nat) (f : Json → Json) : Json :=
  match j with
  | .arr elems => .arr (elems.set i (f (elems.getD i .null)))
  | _ => j

/-- Mutate a field in place. -/
def Json.modifyKey (j : Json) (k : String) (f : Json → Json) : Json :=
  j.setKey k (f (j.getKey k))

/-- Read of `json["choices"][0]["delta"]["content"]`. -/
def delta_content (j : Json) : Json :=
  (((j.getKey "choices").getIdx 0).getKey "delta").getKey "content"

/-- Write of `json["choices"][0]["delta"]["content"] = v`. -/
def set_delta_content (j : Json) (v : Json) : Json :=
  j.modifyKey "choices" (fun c => c.modifyIdx 0
    (fun ch => ch.modifyKey "delta" (fun d => d.setKey "content" v)))

/-- Read of `json["choices"][0]["message"]["content"]`. -/
def message_content (j : Json) : Json :=
  (((j.getKey "choices").getIdx 0).getKey "message").getKey "content"

/-- Write of `json["choices"][0]["message"]["content"] = v`. -/
def set_message_content (j : Json) (v : Json) : Json :=
  j.modifyKey "choices" (fun c => c.modifyIdx 0
    (fun ch => ch.modifyKey "message" (fun m => m.setKey "content" v)))

/-! ### Character-list string utilities

Embeddings of the `str` operations the sources use (`split_once`, `split`,
`contains`, `starts_with`, `strip_prefix`).  They are written by structural
recursion over `String.data` so that every theorem below can be settled by
kernel evaluation. -/

/-- Rust `str::split_once(c)`: the pieces before and after the first `c`. -/
def splitOnceChar (c : Char) : List Char → Option (List Char × List Char)
  | [] => none
  | a :: rest =>
    if a = c then some ([], rest)
    else (splitOnceChar c rest).map (fun r => (a :: r.1, r.2))

/-- String-level `split_once`. -/
def split_once (s : String) (c : Char) : Option (String × String) :=
  (splitOnceChar c s.data).map (fun r => (String.mk r.1, String.mk r.2))

/-- Occurrence test, Rust `str::contains(pat)` for a non-empty pattern. -/
def listHasSub (pat : List Char) : List Char → Bool
  | [] => pat.isEmpty
  | c :: cs => pat.isPrefixOf (c :: cs) || listHasSub pat cs

/-- Everything after the first (leftmost) occurrence of `pat`, if any. -/
def listAfterFirst (pat : List Char) : List Char → Option (List Char)
  | [] => none
  | c :: cs =>
    if pat.isPrefixOf (c :: cs) then some ((c :: cs).drop pat.length)
    else listAfterFirst pat cs

/-- Fuelled iteration of `listAfterFirst`: everything after the last of the
leftmost-first non-overlapping occurrences of `pat`, which is exactly the
final element of Rust `str::split(pat)`.  The fuel is an upper bound on the
number of occurrences; each successful step strictly shortens the list when
`pat` is non-empty, so `l.length + 1` fuel never runs out. -/
def listAfterLastFuel (pat : List Char) : Nat → List Char → List Char
  | 0, l => l
  | fuel + 1, l =>
    match listAfterFirst pat l with
    | none => l
    | some rest => listAfterLastFuel pat fuel rest

/-- Rust `s.split(pat).last().unwrap()` for a non-empty `pat`. -/
def strAfterLast (s pat : String) : String :=
  String.mk (listAfterLastFuel pat.data (s.data.length + 1) s.data)

/-- Rust `s.contains(pat)`. -/
def strHasSub (s pat : String) : Bool := listHasSub pat.data s.data

/-- Rust `s.starts_with(pat)`. -/
def strStartsWith (s pat : String) : Bool := pat.data.isPrefixOf s.data

/-- Rust `header.strip_prefix("Bearer ")` (from `middleware/mod.rs`). -/
def stripBearer (h : String) : Option String :=
  if h.data.take 7 = "Bearer ".data then some (String.mk (h.data.drop 7)) else none

/-! ### Configuration model (`src/config.rs`)

Only the fields the verified code paths consult.  The salvo-era files address
the upstream endpoint as `provider.url`, which is what both embedded
forwarders use; the `endpoints` refinement plays no role in any claim. -/

structure ModelMapping where
  alias_ : String
  model : String
deriving DecidableEq

structure Provider where
  name : String
  models : List ModelMapping
  url : String
  keys : List String
deriving DecidableEq

/-! ### Authentication middleware (`src/middleware/mod.rs`, `auth_handler`) -/

inductive AuthOutcome where
  | forbiddenIpBanned
  | unauthorized
  | pass
deriving DecidableEq

/-- Function `auth_handler`: ban check first, then bearer comparison.  A
missing header, a non-`Bearer ` header and a wrong token all fall through to
`record_failure` + 401; a match calls `reset_failures` and passes the request
on.  `now` is the failure-record timestamp. -/
def auth_handler (st : BanState) (ip : IpKind) (authHeader : Option String)
    (configAuth : String) (now : Nat) : AuthOutcome × BanState :=
  if st.is_banned ip then (.forbiddenIpBanned, st)
  else
    match authHeader.bind stripBearer with
    | some token =>
      if token = configAuth then (.pass, st.reset_failures ip)
      else (.unauthorized, st.record_failure ip now)
    | none => (.unauthorized, st.record_failure ip now)

/-- A sequence of authentication attempts from one client: each element is the
`Authorization` header (if any) and the arrival time. -/
def run_auth (st : BanState) (ip : IpKind) (configAuth : String) :
    List (Option String × Nat) → List AuthOutcome × BanState
  | [] => ([], st)
  | (h, t) :: rest =>
    let r := auth_handler st ip h configAuth t
    let rr := run_auth r.2 ip configAuth rest
    (r.1 :: rr.1, rr.2)

/-! ### Router of the axum pipeline (`src/state.rs`, `AppState`) -/

/-- Method `AppState::get_provider_by_model`: a `provider:model` string picks
the provider by name; a plain alias picks the first provider whose `models`
list contains the alias.  Usage counters are not consulted. -/
def get_provider_by_model (providers : List Provider) (model : String) :
    Option Provider :=
  match split_once model ':' with
  | some (provider_name, _) => providers.find? (fun p => p.name = provider_name)
  | none => providers.find? (fun p => p.models.any (fun m => m.alias_ = model))

/-- Method `AppState::get_model_mapping`: the colon form returns the text after
the colon unchanged (when the named provider exists); a plain alias returns
the `model` field of the first matching mapping. -/
def get_model_mapping (providers : List Provider) (aliasArg : String) :
    Option String :=
  match split_once aliasArg ':' with
  | some (provider_name, model_name) =>
    (providers.find? (fun p => p.name = provider_name)).map (fun _ => model_name)
  | none =>
    providers.findSome? (fun p =>
      (p.models.find? (fun m => m.alias_ = aliasArg)).map (fun m => m.model))

/-! ### AI service of the axum pipeline (`src/services/ai.rs`) -/

/-- Loop body of `AIService::select_api_key`: `min_usage` starts at
`u64::MAX` (modelled as `none`, i.e. larger than everything), `selected` at
`keys[0]`, and every key with a strictly smaller usage replaces the
selection, so the first key of minimal usage wins. -/
def selectKeyLoop (keyUsage : List (String × Nat)) :
    List String → Option Nat → String → String
  | [], _, selected => selected
  | k :: rest, minUsage, selected =>
    let usage := (mapGet keyUsage k).getD 0
    match minUsage with
    | none => selectKeyLoop keyUsage rest (some usage) k
    | some mu =>
      if usage < mu then selectKeyLoop keyUsage rest (some usage) k
      else selectKeyLoop keyUsage rest (some mu) selected

/-- Method `AIService::select_api_key`: error on an empty key list, otherwise
the first key of minimal `key_usage` (no increment happens here). -/
def select_api_key (keyUsage : List (String × Nat)) (p : Provider) :
    Except String String :=
  match p.keys with
  | [] => .error ("No API keys configured for provider " ++ p.name)
  | k₀ :: rest => .ok (selectKeyLoop keyUsage (k₀ :: rest) none k₀)

/-- Method `AIService::update_usage_stats`: one increment on each counter map. -/
def update_usage_stats (provUsage keyUsage : List (String × Nat))
    (p : Provider) (apiKey : String) :
    List (String × Nat) × List (String × Nat) :=
  (mapInc provUsage p.name, mapInc keyUsage apiKey)

/-- Behaviour of the upstream provider for one dispatched request. -/
inductive UpstreamBehavior where
  | response (status : Nat) (body : String)
  | transportError (msg : String)
deriving DecidableEq

/-- Observable events of one forwarded request, in order of occurrence. -/
inductive TraceEv where
  | requestSent
  | headersReceived
  | providerUsageInc (name : String)
  | keyUsageInc (key : String)
deriving DecidableEq, BEq

/-- Result and final state of
`AIService::forward_request_with_model_replacement`. -/
structure AiOutcome where
  result : Except String String
  provider_usage : List (String × Nat)
  key_usage : List (String × Nat)
  trace : List TraceEv
  sentPayload : Option Json

/-- Method `AIService::forward_request_with_model_replacement`: resolve the
provider and the real model, rewrite `payload["model"]`, pick a key, send,
and only after `send()` has returned (i.e. after the upstream response
headers have been received) run `update_usage_stats`; then fail on a
non-success status, otherwise relay the body.  A transport error propagates
before any counter is touched. -/
def forward_request_with_model_replacement (providers : List Provider)
    (provUsage keyUsage : List (String × Nat)) (payload : Json) (model : String)
    (upstream : UpstreamBehavior) : AiOutcome :=
  match get_provider_by_model providers model with
  | none =>
    ⟨.error ("Model '" ++ model ++ "' not found"), provUsage, keyUsage, [], none⟩
  | some provider =>
    match get_model_mapping providers model with
    | none =>
      ⟨.error ("Model mapping not found for '" ++ model ++ "'"),
       provUsage, keyUsage, [], none⟩
    | some real_model =>
      let payload' := payload.setKey "model" (.str real_model)
      match select_api_key keyUsage provider with
      | .error e => ⟨.error e, provUsage, keyUsage, [], none⟩
      | .ok api_key =>
        match upstream with
        | .transportError msg =>
          ⟨.error msg, provUsage, keyUsage, [.requestSent], some payload'⟩
        | .response status body =>
          let provUsage' := mapInc provUsage provider.name
          let keyUsage' := mapInc keyUsage api_key
          let tr : List TraceEv :=
            [.requestSent, .headersReceived,
             .providerUsageInc provider.name, .keyUsageInc api_key]
          if 200 ≤ status ∧ status ≤ 299 then
            ⟨.ok body, provUsage', keyUsage', tr, some payload'⟩
          else
            ⟨.error ("API request failed: " ++ toString status),
             provUsage', keyUsage', tr, some payload'⟩

/-- One chat-completion round of the axum pipeline with a successful upstream,
used by the selection scenarios: the request body carries only the model
alias, the upstream replies `200`. -/
def ai_round (providers : List Provider) (provUsage keyUsage : List (String × Nat))
    (model : String) : AiOutcome :=
  forward_request_with_model_replacement providers provUsage keyUsage
    (Json.obj [("model", Json.str model)]) model (.response 200 "ok")


/-! ### Router of the salvo pipeline (`src/api.rs`, `select_provider` /
`select_key`)

Rust `Iterator::min_by_key` returns the first element attaining the minimal
key, which `minByFirst` reproduces. -/

/-- First element of minimal key, Rust `iter().min_by_key(f)`. -/
def minByFirst (f : α → Nat) : List α → Option α
  | [] => none
  | x :: xs =>
    match minByFirst f xs with
    | none => some x
    | some y => if f x ≤ f y then some x else some y

/-- Function `select_provider` (`api.rs`): first provider of minimal
`PROVIDER_USAGE_COUNT`, counting absent names as 0, then increment the
winner's counter. -/
def api_select_provider (provUsage : List (String × Nat))
    (providers : List Provider) :
    Except String (Provider × List (String × Nat)) :=
  match minByFirst (fun p => (mapGet provUsage p.name).getD 0) providers with
  | none => .error "没有找到能处理该模型的提供者"
  | some p => .ok (p, mapInc provUsage p.name)

/-- Function `select_key` (`api.rs`): first key of minimal `KEY_USAGE_COUNT`,
counting absent keys as 0, then increment the winner's counter. -/
def api_select_key (keyUsage : List (String × Nat)) (p : Provider) :
    Except String (String × List (String × Nat)) :=
  match minByFirst (fun k => (mapGet keyUsage k).getD 0) p.keys with
  | none => .error ("提供者 " ++ p.name ++ " 没有可用的密钥")
  | some k => .ok (k, mapInc keyUsage k)

/-- Result and final state of the salvo `forward` (`api.rs`). -/
structure ApiForwardDone where
  result : Except Json String
  provider_usage : List (String × Nat)
  key_usage : List (String × Nat)
  sentPayload : Option Json
  requestSent : Bool

/-- Function `forward` (`api.rs`): read `json["model"]`, filter the providers
serving that alias, run `select_provider` and `select_key` (both counters are
incremented here, before the request is even dispatched), rewrite the
payload's `model` to the provider's real model name, send, and then treat
every upstream status other than exactly 200 as an error whose full body text
becomes `{error, provider}`; a transport error becomes the same shape with
the error message.  On 200 the byte stream is relayed. -/
def api_forward (providers : List Provider)
    (provUsage keyUsage : List (String × Nat)) (json : Json)
    (upstream : UpstreamBehavior) : ApiForwardDone :=
  match (json.getKey "model").asStr with
  | none =>
    ⟨.error (Json.obj [("error", .str "缺少 model 字段")]),
     provUsage, keyUsage, none, false⟩
  | some model =>
    let candidates := providers.filter (fun p => p.models.any (fun m => m.alias_ = model))
    match api_select_provider provUsage candidates with
    | .error e =>
      ⟨.error (Json.obj [("error", .str e)]), provUsage, keyUsage, none, false⟩
    | .ok (provider, provUsage') =>
      match api_select_key keyUsage provider with
      | .error e =>
        ⟨.error (Json.obj [("error", .str e)]), provUsage', keyUsage, none, false⟩
      | .ok (_key, keyUsage') =>
        match (provider.models.find? (fun m => m.alias_ = model)).map (fun m => m.model) with
        | none =>
          -- `.expect("查找模型出现问题")` would panic; unreachable: the
          -- provider came from the alias filter above.
          ⟨.error (Json.obj [("error", .str "查找模型出现问题")]),
           provUsage', keyUsage', none, false⟩
        | some realModel =>
          let json' := json.setKey "model" (.str realModel)
          match upstream with
          | .transportError msg =>
            ⟨.error (Json.obj [("error", .str msg), ("provider", .str provider.name)]),
             provUsage', keyUsage', some json', true⟩
          | .response status body =>
            if status ≠ 200 then
              ⟨.error (Json.obj [("error", .str body), ("provider", .str provider.name)]),
               provUsage', keyUsage', some json', true⟩
            else
              ⟨.ok body, provUsage', keyUsage', some json', true⟩

/-- HTTP reply the salvo `completions` handler produces from the `forward`
result (`api.rs` lines 59-77): relay the stream with the stream-dependent
content type on success, `500` with the error JSON otherwise. -/
inductive HandlerReply where
  | relay (contentType : String) (body : String)
  | errorReply (status : Nat) (body : Json)

/-- Response assembly of `completions` after `forward` returns. -/
def completions_reply (streamFlag : Bool) (fr : Except Json String) : HandlerReply :=
  match fr with
  | .ok body =>
    .relay (if streamFlag then "text/event-stream" else "application/json") body
  | .error e => .errorReply 500 e

/-! ### Think-strip stream transform (`src/api.rs`, `no_think_completions`,
streaming branch)

Per-stream state is the `thinked` flag and the rolling `buffer`.  Each SSE
event arrives as its `data` text together with the result of
`serde_json::from_str` on that text (the two travel together; the parse
outcome is supplied as part of the input). -/

structure ThinkState where
  thinked : Bool
  buffer : String
deriving DecidableEq

/-- An emitted SSE event: raw text or a JSON payload. -/
inductive SseOut where
  | text (s : String)
  | json (j : Json)

/-- One incoming SSE event: the `data` text and its parse result. -/
structure SseIn where
  data : String
  parsed : Option Json

/-- The literal separator `</think>\n\n`. -/
def thinkDelim : String := "</think>\n\n"

/-- One step of the streaming think-strip transform, exactly in source order:
after `thinked` the raw event text passes through; a parse failure passes the
raw text through; a missing `choices[0].delta.content` forwards the JSON
unchanged; otherwise the content is appended to the buffer and then FIRST the
no-thinking check (`!buffer.starts_with("<th") && buffer.chars().count() >
3`, emitting the whole buffer) runs, and only if it fails the
`buffer.contains("</think>\n\n")` check (emitting everything after the LAST
occurrence, via `split(..).last()`), else an empty-content event. -/
def no_think_step (st : ThinkState) (e : SseIn) : ThinkState × SseOut :=
  if st.thinked then (st, .text e.data)
  else
    match e.parsed with
    | none => (st, .text e.data)
    | some j =>
      match (delta_content j).asStr with
      | none => (st, .json j)
      | some content =>
        let buffer := st.buffer ++ content
        if ¬ strStartsWith buffer "<th" ∧ buffer.length > 3 then
          (⟨true, buffer⟩, .json (set_delta_content j (.str buffer)))
        else if strHasSub buffer thinkDelim then
          (⟨true, buffer⟩,
           .json (set_delta_content j (.str (strAfterLast buffer thinkDelim))))
        else
          (⟨false, buffer⟩, .json (set_delta_content j (.str "")))

/-- Content this claim predicts for one event, in the claim's words: the
containment check comes first and emits everything after the FIRST
`</think>\n\n`; only otherwise the length/prefix check emits the whole
buffer; else the empty string.  Returns the emitted content together with
whether thinking ended. -/
def claim_think_content (bufferBefore content : String) : Bool × String :=
  let buffer := bufferBefore ++ content
  if strHasSub buffer thinkDelim then
    (true, String.mk ((listAfterFirst thinkDelim.data buffer.data).getD buffer.data))
  else if buffer.length > 3 ∧ ¬ strStartsWith buffer "<th" then
    (true, buffer)
  else
    (false, "")

/-- A synthetic SSE chat chunk whose `choices[0].delta.content` is `content`
(the generic event shape the upstream emits). -/
def mkDeltaEvent (content : String) : Json :=
  .obj [("choices", .arr [.obj [("delta", .obj [("content", .str content)])]])]

/-- Content string emitted by `no_think_step`, for comparing against the
claim's prediction (`Json.null`-derived `none` when the step emitted raw
text). -/
def emitted_content (out : SseOut) : Option String :=
  match out with
  | .text _ => none
  | .json j => (delta_content j).asStr

/-! ### Non-streaming no_think path (`src/api.rs` lines 195-209)

The handler calls `.json::<Value>().await.unwrap()` and then
`["choices"][0]["message"]["content"].as_str().unwrap()`.  A panic of either
`unwrap` aborts the handler before any HTTP response is rendered; a panic is
modelled as `none`.  The input is `none` when the upstream body is not valid
JSON (first unwrap panics). -/

def no_think_nonstream (body : Option Json) : Option Json :=
  match body with
  | none => none
  | some j =>
    match (message_content j).asStr with
    | none => none
    | some s =>
      some (set_message_content j (.str (strAfterLast s thinkDelim)))

/-! ### Response cache (`src/db.rs` plus the spec-modelled handler wiring) -/

/-- Row of the `ai_requests` table (`src/db.rs`). -/
structure AIRequest where
  id : Int
  messages : Json
  response : String

/-- Method `DatabaseClient::get_from_db` (`src/db.rs`): `SELECT * FROM
ai_requests WHERE messages = $1` with `fetch_optional`, i.e. the first stored
row whose `messages` equals the fingerprint. -/
def get_from_db (rows : List AIRequest) (messages : Json) : Option AIRequest :=
  rows.find? (fun r => Json.beq r.messages messages)

/-- Where a cache hit was served from (the `hit_cache` depot flag). -/
inductive CacheFlag where
  | memory
  | db
deriving DecidableEq

/-- Modelled from the spec: the handler-side cache lookup is not under
`src/` — only its collaborators are (`db.rs` for the persistent store,
`logger.rs` reading the `hit_cache` depot flag); the salvo wiring that
consults the in-memory `CACHE` and short-circuits the upstream call is
missing.  Following spec §4.6 step 3: the fingerprint is the request's
`messages` value, checked in memory first, then in the persistent store, and
the hit records which depot served it. -/
def cache_lookup (mem : List (Json × String)) (rows : List AIRequest)
    (messages : Json) : Option (CacheFlag × String) :=
  match mem.find? (fun e => Json.beq e.1 messages) with
  | some e => some (.memory, e.2)
  | none =>
    match get_from_db rows messages with
    | some row => some (.db, row.response)
    | none => none

/-- Modelled from the spec, §4.4(c) cache-replay for `stream=true`: two SSE
events, the first carrying `{choices:[{delta:{role:"assistant", content:
cached}}]}` as JSON, the second the literal `[DONE]`. -/
def replay_stream_events (cached : String) : List SseOut :=
  [.json (Json.obj [("choices", .arr [.obj [("delta",
      .obj [("role", .str "assistant"), ("content", .str cached)])]])]),
   .text "[DONE]"]

/-- Modelled from the spec, §4.4(c) cache-replay for `stream=false`: one JSON
body `{choices:[{message:{role:"assistant", content: cached}}]}`. -/
def replay_body (cached : String) : Json :=
  Json.obj [("choices", .arr [.obj [("message",
    .obj [("role", .str "assistant"), ("content", .str cached)])]])]

/-- Everything the cached-or-forwarded completion round exposes. -/
structure CompletionsOutcome where
  events : List SseOut
  hit : Option CacheFlag
  upstreamIssued : Bool
  provider_usage : List (String × Nat)
  key_usage : List (String × Nat)

/-- Modelled from the spec: the chat-completion round around the cache
(spec §4.6 steps 3-4).  On a hit the reply is synthesized from the cached
text (streaming: the two replay events; else the replay body), the upstream
is never called and no counter moves.  On a miss the request goes through the
salvo `forward` with its counter increments, and the upstream is called
whenever `forward` dispatches it. -/
def completions_with_cache (mem : List (Json × String)) (rows : List AIRequest)
    (providers : List Provider) (provUsage keyUsage : List (String × Nat))
    (reqJson : Json) (upstream : UpstreamBehavior) : CompletionsOutcome :=
  let stream := ((reqJson.getKey "stream").asBool).getD false
  match cache_lookup mem rows (reqJson.getKey "messages") with
  | some (flag, cached) =>
    ⟨if stream then replay_stream_events cached else [.json (replay_body cached)],
     some flag, false, provUsage, keyUsage⟩
  | none =>
    let f := api_forward providers provUsage keyUsage reqJson upstream
    ⟨match f.result with
      | .ok body => [.text body]
      | .error e => [.json e],
     none, f.requestSent, f.provider_usage, f.key_usage⟩


/-! ### Shared concrete fixtures -/

/-- Provider `A` serving alias `m`, used by the selection scenarios. -/
def provA : Provider := ⟨"A", [⟨"m", "real-A"⟩], "http://a", ["kA"]⟩

/-- Provider `B` serving alias `m`. -/
def provB : Provider := ⟨"B", [⟨"m", "real-B"⟩], "http://b", ["kB"]⟩

/-- Two-provider configuration with both serving alias `m`. -/
def cfgAB : List Provider := [provA, provB]

/-! ### String helper lemmas -/

theorem string_data_append (a b : String) : (a ++ b).data = a.data ++ b.data := by
  cases a
  cases b
  rfl

theorem string_mk_data (s : String) : String.mk s.data = s := by
  cases s
  rfl

theorem stripBearer_bearer_append (t : String) :
    stripBearer ("Bearer " ++ t) = some t := by
  unfold stripBearer
  rw [string_data_append]
  have h7 : ("Bearer ".data).length = 7 := by decide
  rw [← h7, List.take_left, List.drop_left]
  simp [string_mk_data]

theorem splitOnceChar_left_clean (p m : List Char) (hp : ':' ∉ p) :
    splitOnceChar ':' (p ++ ':' :: m) = some (p, m) := by
  induction p with
  | nil => simp [splitOnceChar]
  | cons a rest ih =>
    have ha : a ≠ ':' := fun h => hp (h ▸ List.mem_cons_self a rest)
    have hrest : ':' ∉ rest := fun h => hp (List.mem_cons_of_mem a h)
    simp [splitOnceChar, ha, ih hrest]

theorem split_once_colon_form (pname mname : String) (h : ':' ∉ pname.data) :
    split_once (pname ++ ":" ++ mname) ':' = some (pname, mname) := by
  unfold split_once
  have hdata : (pname ++ ":" ++ mname).data = pname.data ++ ':' :: mname.data := by
    rw [string_data_append, string_data_append]
    simp
  rw [hdata, splitOnceChar_left_clean _ _ h]
  simp [string_mk_data]

/-! ### Claim C2 -/

/-- C2: the claim says failures from addresses sharing a /48 accumulate on
the /48 network key and ban the whole /48.  In the code `IpNet::new(addr,
48)` is rendered without truncation, so `2001:db8:abcd::1` and
`2001:db8:abcd:ffff::2` are keyed separately even though they share the /48
(`ipv6Slash48` agrees on them): after one failure from the first address and
four from the second — all inside the window — no key reaches `max_failures`,
nothing enters the banned set, and `is_banned` stays false on both addresses,
contradicting the claimed ban of `2001:db8:abcd::/48`. -/
def ipv6AddrOne : Nat := 0x20010DB8ABCD00000000000000000001

def ipv6AddrTwo : Nat := 0x20010DB8ABCDFFFF0000000000000002

/-- Ban-manager state after the claim's scenario: one failure from
`2001:db8:abcd::1` and four from `2001:db8:abcd:ffff::2`, all at time 0
(inside the one-hour window). -/
def ipv6ScenarioState : BanState :=
  (((((BanState.new 5).record_failure (.v6 ipv6AddrOne "2001:db8:abcd::1") 0).record_failure
    (.v6 ipv6AddrTwo "2001:db8:abcd:ffff::2") 0).record_failure
    (.v6 ipv6AddrTwo "2001:db8:abcd:ffff::2") 0).record_failure
    (.v6 ipv6AddrTwo "2001:db8:abcd:ffff::2") 0).record_failure
    (.v6 ipv6AddrTwo "2001:db8:abcd:ffff::2") 0

theorem c2_ipv6_slash48_not_banned :
    ipv6Slash48 ipv6AddrOne = ipv6Slash48 ipv6AddrTwo
    ∧ ipv6AddrOne ≠ ipv6AddrTwo
    ∧ ipv6ScenarioState.banned_ipv6_networks = []
    ∧ ipv6ScenarioState.is_banned (.v6 ipv6AddrOne "2001:db8:abcd::1") = false
    ∧ ipv6ScenarioState.is_banned (.v6 ipv6AddrTwo "2001:db8:abcd:ffff::2") = false
    ∧ ipv6ScenarioState.get_failure_count (.v6 ipv6AddrOne "2001:db8:abcd::1") 0 = 1
    ∧ ipv6ScenarioState.get_failure_count (.v6 ipv6AddrTwo "2001:db8:abcd:ffff::2") 0 = 4 := by
  decide

/-! ### Claim C9 -/

/-- C9 counterexample: five failures of the unparseable identifier
`not-an-ip` put its verbatim key into the banned set (`banned_ipv4`), yet
`is_banned` still answers false for it, because `is_banned` returns false
whenever the identifier does not parse as an IP address.  This falsifies
"isBanned(id) returns true iff the derived key is in the banned set". -/
theorem c9_unparseable_counterexample :
    let bad : IpKind := .bad "not-an-ip"
    let st := (((((BanState.new 5).record_failure bad 0).record_failure
      bad 0).record_failure bad 0).record_failure bad 0).record_failure bad 0
    st.banned_ipv4.contains "not-an-ip" = true
    ∧ st.is_banned bad = false := by
  decide

/-- C9 amended: `is_banned` equals banned-set membership of the derived key
only for identifiers that parse as IP addresses (IPv4 keyed verbatim, IPv6
keyed by the untruncated address/48 rendering); for every unparseable
identifier it returns false unconditionally, even when `record_failure` has
inserted that identifier's verbatim key into the banned set. -/
theorem c9_is_banned_amended (st : BanState) (s : String) (a : Nat) :
    st.is_banned (.bad s) = false
    ∧ st.is_banned (.v4 s) = st.banned_ipv4.contains s
    ∧ st.is_banned (.v6 a s) = st.banned_ipv6_networks.contains a :=
  ⟨rfl, rfl, rfl⟩

/-! ### Claim C10 -/

/-- C10: in the non-streaming `no_think` branch, whenever the upstream body
is not valid JSON, or `choices[0].message.content` is absent or not a string,
the handler's `unwrap` panics and no HTTP response is produced (modelled as
`none`). -/
theorem c10_nonstream_unwrap_panics (j : Json)
    (h : (message_content j).asStr = none) :
    no_think_nonstream (some j) = none ∧ no_think_nonstream none = none := by
  refine ⟨?_, rfl⟩
  simp only [no_think_nonstream, h]

/-- C10 witness: a 2xx body `{"choices": []}` has no
`choices[0].message.content` string, and the handler produces no response. -/
theorem c10_nonstream_unwrap_panics_witness :
    no_think_nonstream (some (Json.obj [("choices", Json.arr [])])) = none
    ∧ no_think_nonstream none = none :=
  c10_nonstream_unwrap_panics (Json.obj [("choices", Json.arr [])]) rfl

/-! ### Claim C3 -/

/-- C3 counterexample: two inputs on which the order the claim states (the
`</think>\n\n` containment check first, content after the FIRST occurrence)
disagrees with the code (the length/prefix check first, content after the
LAST occurrence).  With an empty buffer and the single event content
`ab</think>\n\nhi` the buffer contains the delimiter, so the claim emits
`hi`, but the code's first check fires and emits the whole buffer.  With
content `<think>a</think>\n\nb</think>\n\nc` the claim emits everything
after the first occurrence, the code everything after the last. -/
theorem c3_check_order_counterexample :
    let c₁ : String := "ab</think>\n\nhi"
    let c₂ : String := "<think>a</think>\n\nb</think>\n\nc"
    strHasSub c₁ thinkDelim = true
    ∧ emitted_content (no_think_step ⟨false, ""⟩ ⟨"", some (mkDeltaEvent c₁)⟩).2 = some c₁
    ∧ (claim_think_content "" c₁).2 = "hi"
    ∧ c₁ ≠ "hi"
    ∧ emitted_content (no_think_step ⟨false, ""⟩ ⟨"", some (mkDeltaEvent c₂)⟩).2 = some "c"
    ∧ (claim_think_content "" c₂).2 = "b</think>\n\nc"
    ∧ ("c" : String) ≠ "b</think>\n\nc" := by
  decide

/-- C3 amended: while `stillThinking` holds, the checks run in the opposite
order from the claim: FIRST, if the accumulated buffer is longer than 3
characters and does not start with `<th`, thinking ends and the whole buffer
is emitted; only otherwise, if the buffer contains `</think>\n\n`, thinking
ends and the emitted content is everything after the LAST occurrence of the
delimiter; otherwise an empty-content event is emitted. -/
theorem c3_think_strip_amended (bufferBefore content dataText : String) (j : Json)
    (hc : (delta_content j).asStr = some content) :
    ((¬ strStartsWith (bufferBefore ++ content) "<th"
        ∧ (bufferBefore ++ content).length > 3) →
      no_think_step ⟨false, bufferBefore⟩ ⟨dataText, some j⟩
        = (⟨true, bufferBefore ++ content⟩,
           .json (set_delta_content j (.str (bufferBefore ++ content)))))
    ∧ ((strStartsWith (bufferBefore ++ content) "<th" = true
          ∨ (bufferBefore ++ content).length ≤ 3) →
       strHasSub (bufferBefore ++ content) thinkDelim = true →
      no_think_step ⟨false, bufferBefore⟩ ⟨dataText, some j⟩
        = (⟨true, bufferBefore ++ content⟩,
           .json (set_delta_content j
             (.str (strAfterLast (bufferBefore ++ content) thinkDelim)))))
    ∧ ((strStartsWith (bufferBefore ++ content) "<th" = true
          ∨ (bufferBefore ++ content).length ≤ 3) →
       strHasSub (bufferBefore ++ content) thinkDelim = false →
      no_think_step ⟨false, bufferBefore⟩ ⟨dataText, some j⟩
        = (⟨false, bufferBefore ++ content⟩,
           .json (set_delta_content j (.str "")))) := by
  have hnot : (strStartsWith (bufferBefore ++ content) "<th" = true
        ∨ (bufferBefore ++ content).length ≤ 3) →
      ¬ (¬ strStartsWith (bufferBefore ++ content) "<th"
          ∧ (bufferBefore ++ content).length > 3) := by
    intro h hcon
    rcases h with h | h
    · exact hcon.1 h
    · omega
  refine ⟨?_, ?_, ?_⟩
  · intro h
    simp only [no_think_step, hc]
    rw [if_neg Bool.false_ne_true, if_pos h]
  · intro h hsub
    simp only [no_think_step, hc]
    rw [if_neg Bool.false_ne_true, if_neg (hnot h), if_pos hsub]
  · intro h hsub
    simp only [no_think_step, hc]
    rw [if_neg Bool.false_ne_true, if_neg (hnot h), if_neg (by simp [hsub])]

/-- C3 witness: the amended behaviour at a concrete event: fresh stream,
content `hello world` (longer than 3 characters, not starting with `<th`),
so thinking ends and the whole buffer is emitted as the event content. -/
theorem c3_think_strip_amended_witness :
    no_think_step ⟨false, ""⟩ ⟨"", some (mkDeltaEvent "hello world")⟩
      = (⟨true, "hello world"⟩,
         .json (set_delta_content (mkDeltaEvent "hello world") (.str "hello world"))) :=
  (c3_think_strip_amended "" "hello world" "" (mkDeltaEvent "hello world") rfl).1
    (by decide)


/-! ### Claim C5 -/

/-- On a not-yet-banned identifier, a wrong bearer token records one failure
and answers 401 (`auth_handler`, failure branch). -/
theorem auth_wrong_step (st : BanState) (ip : IpKind) (tok configAuth : String)
    (t : Nat) (hban : st.is_banned ip = false) (htok : tok ≠ configAuth) :
    auth_handler st ip (some ("Bearer " ++ tok)) configAuth t
      = (.unauthorized, st.record_failure ip t) := by
  unfold auth_handler
  rw [hban]
  simp [stripBearer_bearer_append, htok]

/-- C5: starting from no failure record, five wrong-bearer requests from one
IPv4 address inside the failure window each answer 401, and the fifth puts
the address into the permanent ban set; in the resulting state `is_banned`
holds, every further request — whatever its header, including a correct
bearer — answers 403 `ip_banned` with the state unchanged (the token is never
consulted: the header is universally quantified); `reset_failures` never
touches either banned set; and a successful authentication on a non-banned
identifier only resets the failure record. -/
theorem c5_five_failures_ban (s configAuth tok : String) (t1 t2 t3 t4 t5 : Nat)
    (htok : tok ≠ configAuth)
    (h2 : t2 - t1 ≤ 3600) (h3 : t3 - t1 ≤ 3600)
    (h4 : t4 - t1 ≤ 3600) (h5 : t5 - t1 ≤ 3600) :
    run_auth (BanState.new 5) (.v4 s) configAuth
      [(some ("Bearer " ++ tok), t1), (some ("Bearer " ++ tok), t2),
       (some ("Bearer " ++ tok), t3), (some ("Bearer " ++ tok), t4),
       (some ("Bearer " ++ tok), t5)]
      = ([.unauthorized, .unauthorized, .unauthorized, .unauthorized, .unauthorized],
         ⟨[(s, (5, t1))], [], [s], [], 5, 1⟩)
    ∧ BanState.is_banned ⟨[(s, (5, t1))], [], [s], [], 5, 1⟩ (.v4 s) = true
    ∧ (∀ hdr t, auth_handler ⟨[(s, (5, t1))], [], [s], [], 5, 1⟩ (.v4 s) hdr configAuth t
        = (.forbiddenIpBanned, ⟨[(s, (5, t1))], [], [s], [], 5, 1⟩))
    ∧ (∀ st : BanState, ∀ ip : IpKind,
        (st.reset_failures ip).banned_ipv4 = st.banned_ipv4
        ∧ (st.reset_failures ip).banned_ipv6_networks = st.banned_ipv6_networks)
    ∧ (∀ st : BanState, ∀ ip : IpKind, ∀ t, st.is_banned ip = false →
        auth_handler st ip (some ("Bearer " ++ configAuth)) configAuth t
          = (.pass, st.reset_failures ip)) := by
  have e1 : (BanState.new 5).record_failure (.v4 s) t1
      = ⟨[(s, (1, t1))], [], [], [], 5, 1⟩ := by
    simp [BanState.new, BanState.record_failure, failStep, mapGet, mapSet]
  have e2 : BanState.record_failure ⟨[(s, (1, t1))], [], [], [], 5, 1⟩ (.v4 s) t2
      = ⟨[(s, (2, t1))], [], [], [], 5, 1⟩ := by
    simp [BanState.record_failure, failStep, mapGet, mapSet, h2]
  have e3 : BanState.record_failure ⟨[(s, (2, t1))], [], [], [], 5, 1⟩ (.v4 s) t3
      = ⟨[(s, (3, t1))], [], [], [], 5, 1⟩ := by
    simp [BanState.record_failure, failStep, mapGet, mapSet, h3]
  have e4 : BanState.record_failure ⟨[(s, (3, t1))], [], [], [], 5, 1⟩ (.v4 s) t4
      = ⟨[(s, (4, t1))], [], [], [], 5, 1⟩ := by
    simp [BanState.record_failure, failStep, mapGet, mapSet, h4]
  have e5 : BanState.record_failure ⟨[(s, (4, t1))], [], [], [], 5, 1⟩ (.v4 s) t5
      = ⟨[(s, (5, t1))], [], [s], [], 5, 1⟩ := by
    simp [BanState.record_failure, failStep, mapGet, mapSet, h5]
  have hb0 : (BanState.new 5).is_banned (.v4 s) = false := rfl
  have hbk : ∀ t1' k, BanState.is_banned ⟨[(s, (k, t1'))], [], [], [], 5, 1⟩ (.v4 s) = false := by
    intro t1' k
    rfl
  have w1 := auth_wrong_step (BanState.new 5) (.v4 s) tok configAuth t1 hb0 htok
  have w2 := auth_wrong_step ⟨[(s, (1, t1))], [], [], [], 5, 1⟩ (.v4 s) tok configAuth t2
    (hbk t1 1) htok
  have w3 := auth_wrong_step ⟨[(s, (2, t1))], [], [], [], 5, 1⟩ (.v4 s) tok configAuth t3
    (hbk t1 2) htok
  have w4 := auth_wrong_step ⟨[(s, (3, t1))], [], [], [], 5, 1⟩ (.v4 s) tok configAuth t4
    (hbk t1 3) htok
  have w5 := auth_wrong_step ⟨[(s, (4, t1))], [], [], [], 5, 1⟩ (.v4 s) tok configAuth t5
    (hbk t1 4) htok
  refine ⟨?_, ?_, ?_, ?_, ?_⟩
  · simp only [run_auth, w1, e1, w2, e2, w3, e3, w4, e4, w5, e5]
  · simp [BanState.is_banned]
  · intro hdr t
    unfold auth_handler
    rw [if_pos (by simp [BanState.is_banned])]
  · intro st ip
    cases ip <;> simp [BanState.reset_failures]
  · intro st ip t hban
    unfold auth_handler
    rw [hban]
    simp [stripBearer_bearer_append]

/-- C5 witness: the concrete scenario from IPv4 `198.51.100.9` with wrong
token `wrong` against auth `secret`, all within one window; afterwards even
the correct bearer receives the 403 ban response. -/
theorem c5_five_failures_ban_witness :
    run_auth (BanState.new 5) (.v4 "198.51.100.9") "secret"
      [(some ("Bearer " ++ "wrong"), 0), (some ("Bearer " ++ "wrong"), 0),
       (some ("Bearer " ++ "wrong"), 0), (some ("Bearer " ++ "wrong"), 0),
       (some ("Bearer " ++ "wrong"), 0)]
      = ([.unauthorized, .unauthorized, .unauthorized, .unauthorized, .unauthorized],
         ⟨[("198.51.100.9", (5, 0))], [], ["198.51.100.9"], [], 5, 1⟩)
    ∧ BanState.is_banned
        ⟨[("198.51.100.9", (5, 0))], [], ["198.51.100.9"], [], 5, 1⟩
        (.v4 "198.51.100.9") = true
    ∧ auth_handler ⟨[("198.51.100.9", (5, 0))], [], ["198.51.100.9"], [], 5, 1⟩
        (.v4 "198.51.100.9") (some ("Bearer " ++ "secret")) "secret" 7
        = (.forbiddenIpBanned,
           ⟨[("198.51.100.9", (5, 0))], [], ["198.51.100.9"], [], 5, 1⟩) := by
  have h := c5_five_failures_ban "198.51.100.9" "secret" "wrong" 0 0 0 0 0
    (by decide) (by decide) (by decide) (by decide) (by decide)
  exact ⟨h.1, h.2.1, h.2.2.1 (some ("Bearer " ++ "secret")) 7⟩


/-! ### Claim C4 -/

/-- C4 counterexample: in the compiled pipeline
(`AppState::get_provider_by_model` feeding
`AIService::forward_request_with_model_replacement`) the provider is the
first one whose models carry the alias, independent of the usage counters:
with `A` and `B` both serving `m` and both counters at zero, the second
request again selects `A` (its trace increments `A`, not `B`), and after four
requests the counters read `A:4`, `B:absent` — not the claimed `A,B,A,B` with
`A:1,B:1,A:2,B:2`. -/
theorem c4_least_usage_counterexample :
    let o1 := ai_round cfgAB [] [] "m"
    let o2 := ai_round cfgAB o1.provider_usage o1.key_usage "m"
    let o3 := ai_round cfgAB o2.provider_usage o2.key_usage "m"
    let o4 := ai_round cfgAB o3.provider_usage o3.key_usage "m"
    o1.trace = [.requestSent, .headersReceived, .providerUsageInc "A", .keyUsageInc "kA"]
    ∧ o2.trace = [.requestSent, .headersReceived, .providerUsageInc "A", .keyUsageInc "kA"]
    ∧ mapGet o2.provider_usage "A" = some 2
    ∧ mapGet o2.provider_usage "B" = none
    ∧ mapGet o4.provider_usage "A" = some 4
    ∧ mapGet o4.provider_usage "B" = none := by
  decide

/-- C4 amended: for a plain alias the compiled pipeline selects the FIRST
provider (in configuration order) whose models contain the alias, for every
state of the usage counters, and increments exactly that provider's counter
by one once the upstream response arrives (on success and on error statuses
alike); the least-usage alternation the claim describes exists only in the
unreferenced salvo `select_provider`. -/
theorem c4_first_provider_selected (providers : List Provider) (model : String)
    (p : Provider) (realModel k0 : String) (krest : List String)
    (hplain : split_once model ':' = none)
    (hfind : providers.find? (fun q => q.models.any (fun m => m.alias_ = model)) = some p)
    (hmap : get_model_mapping providers model = some realModel)
    (hkeys : p.keys = k0 :: krest)
    (provUsage keyUsage : List (String × Nat)) (payload : Json)
    (status : Nat) (body : String) :
    get_provider_by_model providers model = some p
    ∧ (forward_request_with_model_replacement providers provUsage keyUsage payload
        model (.response status body)).provider_usage = mapInc provUsage p.name
    ∧ mapGet (forward_request_with_model_replacement providers provUsage keyUsage
        payload model (.response status body)).provider_usage p.name
        = some ((mapGet provUsage p.name).getD 0 + 1)
    ∧ (forward_request_with_model_replacement providers provUsage keyUsage payload
        model (.response status body)).trace
        = [.requestSent, .headersReceived, .providerUsageInc p.name,
           .keyUsageInc (selectKeyLoop keyUsage (k0 :: krest) none k0)] := by
  have hgp : get_provider_by_model providers model = some p := by
    unfold get_provider_by_model
    rw [hplain]
    exact hfind
  have hsk : select_api_key keyUsage p
      = .ok (selectKeyLoop keyUsage (k0 :: krest) none k0) := by
    unfold select_api_key
    rw [hkeys]
  refine ⟨hgp, ?_, ?_, ?_⟩ <;>
  · simp only [forward_request_with_model_replacement, hgp, hmap, hsk]
    by_cases hs : 200 ≤ status ∧ status ≤ 299 <;>
      simp [hs, mapGet_mapInc_self]

/-- C4 witness: with both providers of `cfgAB` serving `m` and `A` already at
usage 3, the request still selects `A` and raises it to 4, even on an
upstream error status. -/
theorem c4_first_provider_selected_witness :
    get_provider_by_model cfgAB "m" = some provA
    ∧ mapGet (forward_request_with_model_replacement cfgAB [("A", 3)] []
        (Json.obj []) "m" (.response 503 "oops")).provider_usage provA.name
        = some ((mapGet [("A", 3)] provA.name).getD 0 + 1) := by
  have h := c4_first_provider_selected cfgAB "m" provA "real-A" "kA" []
    (by decide) (by decide) (by decide) rfl [("A", 3)] [] (Json.obj []) 503 "oops"
  exact ⟨h.1, h.2.2.1⟩

/-! ### Claim C6 -/

/-- C6 counterexample: in the compiled pipeline the counter updates run only
after `send()` has returned, i.e. after the upstream response headers have
been received (`update_usage_stats` is called after the `await` on `send`):
at a concrete request the trace opens with `requestSent, headersReceived` and
only then carries the two increments, refuting "incremented before the
upstream response headers are read"; and when the transport fails, the
request reaches the forwarding step yet no counter moves at all. -/
theorem c6_increment_after_headers_counterexample :
    let o := forward_request_with_model_replacement cfgAB [] []
      (Json.obj [("model", Json.str "m")]) "m" (.response 500 "upstream down")
    let ot := forward_request_with_model_replacement cfgAB [] []
      (Json.obj [("model", Json.str "m")]) "m" (.transportError "connection refused")
    o.trace = [.requestSent, .headersReceived, .providerUsageInc "A", .keyUsageInc "kA"]
    ∧ o.trace.take 2 = [.requestSent, .headersReceived]
    ∧ mapGet o.provider_usage "A" = some 1
    ∧ mapGet o.key_usage "kA" = some 1
    ∧ ot.provider_usage = [] ∧ ot.key_usage = [] ∧ ot.trace = [.requestSent] := by
  decide

/-- C6 amended: every request that reaches forwarding AND receives an
upstream response (whatever its status, error statuses included) increments
exactly one provider counter and exactly one key counter, each by one,
leaving all other counters untouched — but the increments happen after the
upstream response headers are received, not before; when the transport fails
no counter is incremented at all. -/
theorem c6_counters_once_after_headers (providers : List Provider)
    (model realModel k0 : String) (p : Provider) (krest : List String)
    (provUsage keyUsage : List (String × Nat)) (payload : Json)
    (hp : get_provider_by_model providers model = some p)
    (hm : get_model_mapping providers model = some realModel)
    (hkeys : p.keys = k0 :: krest) :
    (∀ status body,
      mapGet (forward_request_with_model_replacement providers provUsage keyUsage
          payload model (.response status body)).provider_usage p.name
        = some ((mapGet provUsage p.name).getD 0 + 1)
      ∧ (∀ n, n ≠ p.name →
          mapGet (forward_request_with_model_replacement providers provUsage keyUsage
              payload model (.response status body)).provider_usage n
            = mapGet provUsage n)
      ∧ mapGet (forward_request_with_model_replacement providers provUsage keyUsage
          payload model (.response status body)).key_usage
          (selectKeyLoop keyUsage (k0 :: krest) none k0)
        = some ((mapGet keyUsage (selectKeyLoop keyUsage (k0 :: krest) none k0)).getD 0 + 1)
      ∧ (∀ kk, kk ≠ selectKeyLoop keyUsage (k0 :: krest) none k0 →
          mapGet (forward_request_with_model_replacement providers provUsage keyUsage
              payload model (.response status body)).key_usage kk
            = mapGet keyUsage kk)
      ∧ (forward_request_with_model_replacement providers provUsage keyUsage
          payload model (.response status body)).trace
        = [.requestSent, .headersReceived, .providerUsageInc p.name,
           .keyUsageInc (selectKeyLoop keyUsage (k0 :: krest) none k0)])
    ∧ (∀ msg,
      (forward_request_with_model_replacement providers provUsage keyUsage
          payload model (.transportError msg)).provider_usage = provUsage
      ∧ (forward_request_with_model_replacement providers provUsage keyUsage
          payload model (.transportError msg)).key_usage = keyUsage
      ∧ (forward_request_with_model_replacement providers provUsage keyUsage
          payload model (.transportError msg)).trace = [.requestSent]) := by
  have hsk : select_api_key keyUsage p
      = .ok (selectKeyLoop keyUsage (k0 :: krest) none k0) := by
    unfold select_api_key
    rw [hkeys]
  constructor
  · intro status body
    refine ⟨?_, ?_, ?_, ?_, ?_⟩
    · simp only [forward_request_with_model_replacement, hp, hm, hsk]
      by_cases hs : 200 ≤ status ∧ status ≤ 299 <;>
        simp [hs, mapGet_mapInc_self]
    · intro n hn
      simp only [forward_request_with_model_replacement, hp, hm, hsk]
      by_cases hs : 200 ≤ status ∧ status ≤ 299 <;>
        simp [hs, mapGet_mapInc_ne provUsage p.name n (Ne.symm hn)]
    · simp only [forward_request_with_model_replacement, hp, hm, hsk]
      by_cases hs : 200 ≤ status ∧ status ≤ 299 <;>
        simp [hs, mapGet_mapInc_self]
    · intro kk hk
      simp only [forward_request_with_model_replacement, hp, hm, hsk]
      by_cases hs : 200 ≤ status ∧ status ≤ 299 <;>
        simp [hs, mapGet_mapInc_ne keyUsage _ kk (Ne.symm hk)]
    · simp only [forward_request_with_model_replacement, hp, hm, hsk]
      by_cases hs : 200 ≤ status ∧ status ≤ 299 <;>
        simp [hs]
  · intro msg
    refine ⟨?_, ?_, ?_⟩ <;>
      simp only [forward_request_with_model_replacement, hp, hm, hsk]

/-- C6 witness: the single-provider configuration at a 404 upstream status:
both counters rise to one as the headers arrive, and a transport failure
leaves them empty. -/
theorem c6_counters_once_after_headers_witness :
    mapGet (forward_request_with_model_replacement [provA] [] []
        (Json.obj []) "m" (.response 404 "nope")).provider_usage provA.name
      = some ((mapGet ([] : List (String × Nat)) provA.name).getD 0 + 1)
    ∧ (forward_request_with_model_replacement [provA] [] []
        (Json.obj []) "m" (.transportError "refused")).provider_usage = [] := by
  have h := c6_counters_once_after_headers [provA] "m" "real-A" "kA" provA [] [] []
    (Json.obj []) (by decide) (by decide) rfl
  exact ⟨(h.1 404 "nope").1, (h.2 "refused").1⟩

/-! ### Claim C7 -/

/-- C7 counterexample: the salvo `forward` treats every upstream status other
than exactly 200 as an error — status 201 is a 2xx success by the claim's
reading, yet the code reads the body as error text and the client gets the
500 `{error, provider}` reply instead of a relayed success. -/
theorem c7_status_201_counterexample :
    (200 ≤ 201 ∧ 201 ≤ 299)
    ∧ (api_forward [provA] [] [] (Json.obj [("model", Json.str "m")])
        (.response 201 "created")).result
      = .error (Json.obj [("error", Json.str "created"), ("provider", Json.str "A")])
    ∧ completions_reply false (api_forward [provA] [] []
        (Json.obj [("model", Json.str "m")]) (.response 201 "created")).result
      = .errorReply 500 (Json.obj [("error", Json.str "created"), ("provider", Json.str "A")])
    ∧ (api_forward [provA] [] [] (Json.obj [("model", Json.str "m")])
        (.response 201 "created")).requestSent = true := by
  exact ⟨by decide, rfl, rfl, rfl⟩

/-- C7 amended: the salvo forwarder surfaces an error to the client exactly
when the upstream status differs from 200 (so 2xx statuses other than 200 are
errors too): in that case the full upstream body is read as error text and
surfaced as `{error, provider}`, which `completions` turns into HTTP 500; the
body is relayed as a success only for status 200; a transport error yields
the same `{error, provider}` shape with the error message. -/
theorem c7_error_iff_status_ne_200 (providers : List Provider)
    (provUsage keyUsage pu' ku' : List (String × Nat)) (json : Json) (model : String)
    (p : Provider) (key realModel : String)
    (hmod : (json.getKey "model").asStr = some model)
    (hsp : api_select_provider provUsage
        (providers.filter (fun q => q.models.any (fun m => m.alias_ = model)))
      = .ok (p, pu'))
    (hsk : api_select_key keyUsage p = .ok (key, ku'))
    (hrm : (p.models.find? (fun m => m.alias_ = model)).map (fun m => m.model)
      = some realModel) :
    (∀ status body,
      ((api_forward providers provUsage keyUsage json (.response status body)).result
          = .ok body ↔ status = 200)
      ∧ (status ≠ 200 →
        (api_forward providers provUsage keyUsage json (.response status body)).result
          = .error (Json.obj [("error", Json.str body), ("provider", Json.str p.name)])))
    ∧ (∀ msg,
      (api_forward providers provUsage keyUsage json (.transportError msg)).result
        = .error (Json.obj [("error", Json.str msg), ("provider", Json.str p.name)])) := by
  constructor
  · intro status body
    simp only [api_forward, hmod, hsp, hsk, hrm]
    by_cases hs : status = 200
    · subst hs
      simp
    · rw [if_pos hs]
      simp [hs]
  · intro msg
    simp only [api_forward, hmod, hsp, hsk, hrm]

/-- C7 witness: the single-provider configuration: a 200 reply is relayed, a
503 reply surfaces its body with the provider name. -/
theorem c7_error_iff_status_ne_200_witness :
    (api_forward [provA] [] [] (Json.obj [("model", Json.str "m")])
        (.response 200 "hello")).result = .ok "hello"
    ∧ (api_forward [provA] [] [] (Json.obj [("model", Json.str "m")])
        (.response 503 "down")).result
      = .error (Json.obj [("error", Json.str "down"), ("provider", Json.str provA.name)]) := by
  have h := c7_error_iff_status_ne_200 [provA] [] [] [("A", 1)] [("kA", 1)]
    (Json.obj [("model", Json.str "m")]) "m" provA "kA" "real-A"
    rfl rfl rfl rfl
  exact ⟨(h.1 200 "hello").1.mpr rfl, (h.1 503 "down").2 (by decide)⟩


/-! ### Claim C8 -/

/-- C8: a model field of the form `providerName:modelName` (provider name
free of colons) makes the compiled pipeline select the provider with that
name — independently of every usage counter and of which aliases any
provider serves, both being universally quantified — and the upstream
payload's `model` field is set to `modelName` unchanged; the selected
provider's counter is the one incremented. -/
theorem c8_colon_form_selection (providers : List Provider) (pname mname : String)
    (p : Provider) (k0 : String) (krest : List String)
    (hno : ':' ∉ pname.data)
    (hfind : providers.find? (fun q => q.name = pname) = some p)
    (hkeys : p.keys = k0 :: krest)
    (provUsage keyUsage : List (String × Nat)) (payload : Json)
    (status : Nat) (body : String) :
    p.name = pname
    ∧ get_provider_by_model providers (pname ++ ":" ++ mname) = some p
    ∧ get_model_mapping providers (pname ++ ":" ++ mname) = some mname
    ∧ (forward_request_with_model_replacement providers provUsage keyUsage payload
        (pname ++ ":" ++ mname) (.response status body)).sentPayload
      = some (payload.setKey "model" (.str mname))
    ∧ (forward_request_with_model_replacement providers provUsage keyUsage payload
        (pname ++ ":" ++ mname) (.response status body)).provider_usage
      = mapInc provUsage p.name := by
  have hsp : split_once (pname ++ ":" ++ mname) ':' = some (pname, mname) :=
    split_once_colon_form _ _ hno
  have hname : p.name = pname := by
    have h := List.find?_some hfind
    simpa using h
  have hgp : get_provider_by_model providers (pname ++ ":" ++ mname) = some p := by
    unfold get_provider_by_model
    rw [hsp]
    exact hfind
  have hgm : get_model_mapping providers (pname ++ ":" ++ mname) = some mname := by
    simp only [get_model_mapping, hsp]
    rw [hfind]
    rfl
  have hsk : select_api_key keyUsage p
      = .ok (selectKeyLoop keyUsage (k0 :: krest) none k0) := by
    unfold select_api_key
    rw [hkeys]
  refine ⟨hname, hgp, hgm, ?_, ?_⟩ <;>
  · simp only [forward_request_with_model_replacement, hgp, hgm, hsk]
    by_cases hs : 200 ≤ status ∧ status ≤ 299 <;> simp [hs]

/-- C8 witness: `B:custom-x` forces provider `B` even though `A` serves the
same alias and `A`'s counter is far ahead, and the payload goes upstream with
`model` set to `custom-x`. -/
theorem c8_colon_form_selection_witness :
    get_provider_by_model cfgAB ("B" ++ ":" ++ "custom-x") = some provB
    ∧ get_model_mapping cfgAB ("B" ++ ":" ++ "custom-x") = some "custom-x"
    ∧ (forward_request_with_model_replacement cfgAB [("A", 7)] []
        (Json.obj [("model", Json.str "B:custom-x")]) ("B" ++ ":" ++ "custom-x")
        (.response 200 "ok")).sentPayload
      = some ((Json.obj [("model", Json.str "B:custom-x")]).setKey "model"
          (.str "custom-x")) := by
  have h := c8_colon_form_selection cfgAB "B" "custom-x" provB "kB" []
    (by decide) (by decide) rfl [("A", 7)] []
    (Json.obj [("model", Json.str "B:custom-x")]) 200 "ok"
  exact ⟨h.2.1, h.2.2.1, h.2.2.2.1⟩

/-! ### Claim C1 -/

/-- Cached fingerprint whose inner object stores its keys in the opposite
order from the requests below: it still hits, because the cache compares
`messages` values as JSON maps, not as key sequences. -/
def cachedMessages : Json :=
  Json.arr [Json.obj [("content", Json.str "hi"), ("role", Json.str "user")]]

/-- In-memory cache holding the reply `hello` for `cachedMessages`. -/
def memCache : List (Json × String) := [(cachedMessages, "hello")]

/-- Streaming request whose `messages` equals `cachedMessages` as a map. -/
def streamRequest : Json :=
  Json.obj [("model", Json.str "gpt"), ("stream", Json.bool true),
    ("messages", Json.arr [Json.obj [("role", Json.str "user"),
      ("content", Json.str "hi")]])]

/-- The same request without a `stream` field (non-streaming). -/
def plainRequest : Json :=
  Json.obj [("model", Json.str "gpt"),
    ("messages", Json.arr [Json.obj [("role", Json.str "user"),
      ("content", Json.str "hi")]])]

/-- C1: for every chat-completion request whose `messages` value has a cached
entry — in memory or in the persistent store — the completion round replies
from the cache: unconditionally on the `stream` field, the upstream is not
called, both usage-counter maps are left untouched and the depot flag records
which depot hit; when `stream=true` the reply is exactly the two SSE events,
the first a JSON chunk whose `choices[0].delta.content` is the cached text
and the second the literal `[DONE]`; otherwise it is the single replay body
whose `choices[0].message.content` is the cached text.  (The handler-side
wiring is modelled from the spec, the persistent lookup from `db.rs`; see
`cache_lookup` / `completions_with_cache`.) -/
theorem c1_cache_hit_replay (mem : List (Json × String)) (rows : List AIRequest)
    (providers : List Provider) (provUsage keyUsage : List (String × Nat))
    (reqJson : Json) (upstream : UpstreamBehavior) (flag : CacheFlag) (cached : String)
    (hhit : cache_lookup mem rows (reqJson.getKey "messages") = some (flag, cached)) :
    (completions_with_cache mem rows providers provUsage keyUsage reqJson
        upstream).upstreamIssued = false
    ∧ (completions_with_cache mem rows providers provUsage keyUsage reqJson
        upstream).provider_usage = provUsage
    ∧ (completions_with_cache mem rows providers provUsage keyUsage reqJson
        upstream).key_usage = keyUsage
    ∧ (completions_with_cache mem rows providers provUsage keyUsage reqJson
        upstream).hit = some flag
    ∧ ((reqJson.getKey "stream").asBool = some true →
        (completions_with_cache mem rows providers provUsage keyUsage reqJson
          upstream).events = replay_stream_events cached
        ∧ (∃ e, (completions_with_cache mem rows providers provUsage keyUsage reqJson
            upstream).events = [.json e, .text "[DONE]"]
            ∧ (delta_content e).asStr = some cached))
    ∧ (((reqJson.getKey "stream").asBool).getD false = false →
        (completions_with_cache mem rows providers provUsage keyUsage reqJson
          upstream).events = [.json (replay_body cached)]
        ∧ (message_content (replay_body cached)).asStr = some cached) := by
  refine ⟨?_, ?_, ?_, ?_, ?_, ?_⟩
  · simp only [completions_with_cache, hhit]
  · simp only [completions_with_cache, hhit]
  · simp only [completions_with_cache, hhit]
  · simp only [completions_with_cache, hhit]
  · intro hs
    simp only [completions_with_cache, hhit, hs, Option.getD_some, if_true]
    exact ⟨trivial, ⟨_, rfl, rfl⟩⟩
  · intro hns
    simp only [completions_with_cache, hhit, hns, Bool.false_eq_true, if_false]
    exact ⟨trivial, rfl⟩

/-- C1 witness: the spec's scenario with the cached fingerprint's object keys
stored in the opposite order from the request's: the streaming request gets
the two replay events with content `hello`, the non-streaming request the
single replay body; neither issues an upstream call or moves a counter. -/
theorem c1_cache_hit_replay_witness :
    (completions_with_cache memCache [] [provA] [] [] streamRequest
        (.response 200 "never")).upstreamIssued = false
    ∧ (completions_with_cache memCache [] [provA] [] [] streamRequest
        (.response 200 "never")).hit = some .memory
    ∧ (completions_with_cache memCache [] [provA] [] [] streamRequest
        (.response 200 "never")).events = replay_stream_events "hello"
    ∧ (completions_with_cache memCache [] [provA] [] [] plainRequest
        (.response 200 "never")).upstreamIssued = false
    ∧ (completions_with_cache memCache [] [provA] [] [] plainRequest
        (.response 200 "never")).provider_usage = []
    ∧ (completions_with_cache memCache [] [provA] [] [] plainRequest
        (.response 200 "never")).events = [.json (replay_body "hello")] := by
  have hs := c1_cache_hit_replay memCache [] [provA] [] [] streamRequest
    (.response 200 "never") .memory "hello" rfl
  have hn := c1_cache_hit_replay memCache [] [provA] [] [] plainRequest
    (.response 200 "never") .memory "hello" rfl
  exact ⟨hs.1, hs.2.2.2.1, (hs.2.2.2.2.1 rfl).1, hn.1, hn.2.1, (hn.2.2.2.2.2 rfl).1⟩

end AiForward
